import Mathlib

/-!
Shallow embedding of the QUADS MCP tool gateway
(`src/quads_mcp/tools/quads_tools.py` and `src/quads_mcp/server.py`).

Each Python tool coroutine is modelled as a pure Lean function from its typed
arguments, the injected diagnostics context, the resolved configuration and the
behaviour of the single outbound HTTP call, to the triple
(result, emitted log, issued requests).  The result is `Except Exn Json`:
`.ok env` models the tool returning the envelope `env` to the protocol layer,
`.error e` models a Python exception escaping the tool body.
-/

/-- JSON values, as decoded by `response.json()` in the Python code. -/
inductive Json where
  | null : Json
  | bool : Bool → Json
  | num : Int → Json
  | str : String → Json
  | arr : List Json → Json
  | obj : List (String × Json) → Json

/-- Association lookup in a JSON object field list (first match wins, as in a
Python dict with unique keys). -/
def lookupPairs : List (String × Json) → String → Option Json
  | [], _ => none
  | (k, v) :: rest, key => if k = key then some v else lookupPairs rest key

/-- Lookup of a top-level key of a JSON value (objects only). -/
def Json.lookup : Json → String → Option Json
  | .obj fs, key => lookupPairs fs key
  | _, _ => none

/-- Whether a JSON value is an object with the given top-level key. -/
def Json.hasKey (j : Json) (key : String) : Bool :=
  (j.lookup key).isSome

/-- Diagnostic levels of the request-scoped logging channel
(`ctx.info` / `ctx.error`). -/
inductive Level where
  | info : Level
  | error : Level
deriving DecidableEq

/-- The diagnostic messages emitted during one invocation, in order. -/
abbrev Log := List (Level × String)

/-- Number of log entries at a given level. -/
def countLevel (lv : Level) (log : Log) : Nat :=
  (log.filter (fun e => e.1 = lv)).length

/-- The injected `ctx : Context` argument: `present` models a real Context
object, `absent` models `ctx = None` (the default value declared on several
tools).  Calling `.info` / `.error` on an absent context raises
`AttributeError` in Python. -/
inductive Ctx where
  | present : Ctx
  | absent : Ctx
deriving DecidableEq

/-- Python exceptions relevant to the tool bodies. -/
inductive Exn where
  | httpStatusError : Nat → String → Exn
  | transportError : String → Exn
  | decodeError : String → Exn
  | attributeError : String → Exn
deriving DecidableEq

/-- Behaviour of the single outbound HTTP call of one invocation:
either a response arrives (with its status code, and `some` decoded JSON body
when the body is JSON-decodable, `none` when `response.json()` would raise),
or the transport fails (timeout, DNS failure, connection refused) with the
message `str(e)` of the raised exception. -/
inductive HttpResult where
  | response : Nat → Option Json → HttpResult
  | failure : String → HttpResult

/-- The outbound request descriptor built by a tool: method, full URL, query
parameters, per-call timeout (`timeout=30.0` in the source, modelled as 30 time
units) and optional basic-auth credentials. -/
structure Request where
  method : String
  url : String
  params : List (String × String)
  timeout : Nat
  auth : Option (String × String)
deriving DecidableEq

/-- The per-process configuration mapping, reduced to the only entry the tools
read: `config.get('quads', {}).get('base_url', default)`. -/
structure Config where
  quads_base_url : Option String

/-- Base-URL resolution performed at the top of every tool
(`config.get('quads', {}).get('base_url', 'https://quads.example.com/api/v3')`). -/
def baseUrl (cfg : Config) : String :=
  cfg.quads_base_url.getD "https://quads.example.com/api/v3"

/-- The configuration with no `quads.base_url` entry, resolving to the default
base URL. -/
def defaultCfg : Config := ⟨none⟩

/-- Result of one tool invocation: the envelope handed to the protocol layer,
or the exception that escaped the tool body. -/
abbrev ToolResult := Except Exn Json

/-- Full observable outcome of one invocation: result, diagnostic log, and the
list of outbound requests issued. -/
abbrev Invocation := ToolResult × Log × List Request

/-- Python truthiness of an optional string argument: `if name:` skips both
`None` and the empty string. -/
def pyTruthy : Option String → Bool
  | none => false
  | some s => s ≠ ""

/-- One optional string filter: `if x: params[key] = x` — the parameter is
emitted only when the argument is set and non-empty. -/
def strParam (key : String) (v : Option String) : List (String × String) :=
  match v with
  | some s => if s ≠ "" then [(key, s)] else []
  | none => []

/-- `str(b).lower()` for a Python bool: the literal strings "true"/"false". -/
def pyBoolLower : Bool → String
  | true => "true"
  | false => "false"

/-- The boolean filter: `if broken is not None: params['broken'] =
str(broken).lower()` — emitted for both `True` and `False`, lowercased. -/
def boolParam (key : String) (v : Option Bool) : List (String × String) :=
  match v with
  | some b => [(key, pyBoolLower b)]
  | none => []

/-- `repr` of one string-to-string dict entry, as rendered into the f-string
log messages (Python prints single-quoted keys and values). -/
def pyPairRepr (p : String × String) : String :=
  "\x27" ++ p.1 ++ "\x27: \x27" ++ p.2 ++ "\x27"

/-- `repr` of a string-to-string dict, as rendered into the f-string log
messages such as "Fetching hosts from QUADS with filters: {params}". -/
def pyDictRepr (ps : List (String × String)) : String :=
  "\x7b" ++ String.intercalate ", " (ps.map pyPairRepr) ++ "\x7d"

/-- The fragment `len(result) if isinstance(result, list) else 'unknown'`
used in the success log messages. -/
def lenOrUnknown : Json → String
  | .arr xs => toString xs.length
  | _ => "unknown"

/-- Models the message text `str(e)` of the HTTPStatusError raised by
`response.raise_for_status()` for a non-2xx status.  The source only ever
embeds this text opaquely via `str(e)`; no property proved below depends on
its exact content. -/
def httpErrStr (status : Nat) (url : String) : String :=
  "HTTP status error \x27" ++ toString status ++ "\x27 for url \x27" ++ url ++ "\x27"

/-- Models the message text `str(e)` of the JSONDecodeError raised by
`response.json()` on a non-JSON body. -/
def jsonDecodeErrStr : String :=
  "Expecting value: line 1 column 1 (char 0)"

/-- Models the message of the AttributeError raised when the except handler
calls `ctx.error(...)` on an absent (`None`) context. -/
def noneCtxMsg : String :=
  "NoneType object has no attribute error"

/-- The per-tool data of the shared GET gateway pattern that every tool except
`quads_login` repeats verbatim: the informational message logged before the
request, the URL, the query parameters, the success envelope built from the
decoded payload, the success message logged after decoding, and the prefix of
the generic `except Exception` error message (`f"... : {str(e)}"`). -/
structure GetSpec where
  preMsg : String
  url : String
  params : List (String × String)
  wrap : Json → Json
  postMsg : Json → String
  errLabel : String

/-- The gateway body shared by every GET tool (the Python pattern of
`quads_get_clouds`, lines 59-90, repeated by each subsequent tool):

```
try:
    ctx.info(preMsg)                      -- AttributeError if ctx is None
    response = await client.get(url, params=params, timeout=30.0)
    response.raise_for_status()           -- HTTPStatusError on non-2xx
    result = response.json()              -- JSONDecodeError on bad body
    ctx.info(postMsg(result))
    return wrap(result)
except Exception as e:
    error_msg = errLabel + str(e)
    ctx.error(error_msg)                  -- raises AttributeError if ctx is None
    return {"error": error_msg}
```

When `ctx` is absent, the `ctx.info` call raises inside the try block and the
handler's own `ctx.error` raises again, so the AttributeError escapes before
any request is issued. -/
def runGet (g : GetSpec) (ctx : Ctx) (net : HttpResult) : Invocation :=
  match ctx with
  | .absent => (.error (.attributeError noneCtxMsg), [], [])
  | .present =>
    let log1 : Log := [(.info, g.preMsg)]
    let req : Request := ⟨"GET", g.url, g.params, 30, none⟩
    match net with
    | .failure m =>
        let emsg := g.errLabel ++ m
        (.ok (.obj [("error", .str emsg)]), log1 ++ [(.error, emsg)], [req])
    | .response status body =>
        if status < 200 ∨ 300 ≤ status then
          let emsg := g.errLabel ++ httpErrStr status g.url
          (.ok (.obj [("error", .str emsg)]), log1 ++ [(.error, emsg)], [req])
        else
          match body with
          | none =>
              let emsg := g.errLabel ++ jsonDecodeErrStr
              (.ok (.obj [("error", .str emsg)]), log1 ++ [(.error, emsg)], [req])
          | some result =>
              (.ok (g.wrap result), log1 ++ [(.info, g.postMsg result)], [req])

/-- Embedding of `quads_login` (quads_tools.py lines 14-56).  Unlike every
other tool it POSTs with basic-auth credentials, has a dedicated
`except httpx.HTTPStatusError` handler returning
`{"error": f"Login failed: HTTP {status}", "status_code": status}`, and on
success returns the decoded payload unwrapped (`return result`). -/
def quads_login (username password : String) (ctx : Ctx) (cfg : Config)
    (net : HttpResult) : Invocation :=
  match ctx with
  | .absent => (.error (.attributeError noneCtxMsg), [], [])
  | .present =>
    let log1 : Log := [(.info, "Logging in to QUADS API at " ++ baseUrl cfg)]
    let req : Request := ⟨"POST", baseUrl cfg ++ "/login/", [], 30,
      some (username, password)⟩
    match net with
    | .failure m =>
        let emsg := "Login error: " ++ m
        (.ok (.obj [("error", .str emsg)]), log1 ++ [(.error, emsg)], [req])
    | .response status body =>
        if status < 200 ∨ 300 ≤ status then
          let emsg := "Login failed: HTTP " ++ toString status
          (.ok (.obj [("error", .str emsg), ("status_code", .num status)]),
            log1 ++ [(.error, emsg)], [req])
        else
          match body with
          | none =>
              let emsg := "Login error: " ++ jsonDecodeErrStr
              (.ok (.obj [("error", .str emsg)]), log1 ++ [(.error, emsg)], [req])
          | some result =>
              (.ok result,
                log1 ++ [(.info, "Successfully logged in to QUADS")], [req])

/-- The GET gateway data of `quads_get_clouds` (lines 59-90). -/
def cloudsSpec (cfg : Config) : GetSpec where
  preMsg := "Fetching all clouds from QUADS"
  url := baseUrl cfg ++ "/clouds/"
  params := []
  wrap := fun result => .obj [("clouds", result)]
  postMsg := fun result => "Retrieved " ++ lenOrUnknown result ++ " clouds"
  errLabel := "Failed to get clouds: "

/-- Embedding of `quads_get_clouds` (quads_tools.py lines 59-90). -/
def quads_get_clouds (ctx : Ctx) (cfg : Config) (net : HttpResult) : Invocation :=
  runGet (cloudsSpec cfg) ctx net

/-- The GET gateway data of `quads_get_free_clouds` (lines 93-124). -/
def freeCloudsSpec (cfg : Config) : GetSpec where
  preMsg := "Fetching free clouds from QUADS"
  url := baseUrl cfg ++ "/clouds/free/"
  params := []
  wrap := fun result => .obj [("free_clouds", result)]
  postMsg := fun result => "Retrieved " ++ lenOrUnknown result ++ " free clouds"
  errLabel := "Failed to get free clouds: "

/-- Embedding of `quads_get_free_clouds` (quads_tools.py lines 93-124). -/
def quads_get_free_clouds (ctx : Ctx) (cfg : Config) (net : HttpResult) :
    Invocation :=
  runGet (freeCloudsSpec cfg) ctx net

/-- The query parameters built by `quads_get_hosts` (lines 151-160). -/
def hostsParams (name model host_type : Option String) (broken : Option Bool) :
    List (String × String) :=
  strParam "name" name ++ strParam "model" model ++
    strParam "host_type" host_type ++ boolParam "broken" broken

/-- The GET gateway data of `quads_get_hosts` (lines 127-175).  The success
envelope echoes the parameter dict under the extra key "filters". -/
def hostsSpec (name model host_type : Option String) (broken : Option Bool)
    (cfg : Config) : GetSpec where
  preMsg := "Fetching hosts from QUADS with filters: " ++
    pyDictRepr (hostsParams name model host_type broken)
  url := baseUrl cfg ++ "/hosts/"
  params := hostsParams name model host_type broken
  wrap := fun result => .obj [("hosts", result),
    ("filters", .obj ((hostsParams name model host_type broken).map
      (fun p => (p.1, Json.str p.2))))]
  postMsg := fun result => "Retrieved " ++ lenOrUnknown result ++ " hosts"
  errLabel := "Failed to get hosts: "

/-- Embedding of `quads_get_hosts` (quads_tools.py lines 127-175). -/
def quads_get_hosts (name model host_type : Option String)
    (broken : Option Bool) (ctx : Ctx) (cfg : Config) (net : HttpResult) :
    Invocation :=
  runGet (hostsSpec name model host_type broken cfg) ctx net

/-- The GET gateway data of `quads_get_host_details` (lines 178-210).  The
hostname is substituted into the path; the generic error label interpolates
it too. -/
def hostDetailsSpec (hostname : String) (cfg : Config) : GetSpec where
  preMsg := "Fetching details for host: " ++ hostname
  url := baseUrl cfg ++ "/hosts/" ++ hostname ++ "/"
  params := []
  wrap := fun result => .obj [("host", result)]
  postMsg := fun _ => "Retrieved details for host " ++ hostname
  errLabel := "Failed to get host details for " ++ hostname ++ ": "

/-- Embedding of `quads_get_host_details` (quads_tools.py lines 178-210). -/
def quads_get_host_details (hostname : String) (ctx : Ctx) (cfg : Config)
    (net : HttpResult) : Invocation :=
  runGet (hostDetailsSpec hostname cfg) ctx net

/-- The query parameters built by `quads_get_available_hosts` (lines 235-241). -/
def availableParams (start end_ cloud : Option String) :
    List (String × String) :=
  strParam "start" start ++ strParam "end" end_ ++ strParam "cloud" cloud

/-- The GET gateway data of `quads_get_available_hosts` (lines 213-256). -/
def availableHostsSpec (start end_ cloud : Option String) (cfg : Config) :
    GetSpec where
  preMsg := "Fetching available hosts with parameters: " ++
    pyDictRepr (availableParams start end_ cloud)
  url := baseUrl cfg ++ "/available/"
  params := availableParams start end_ cloud
  wrap := fun result => .obj [("available_hosts", result),
    ("parameters", .obj ((availableParams start end_ cloud).map
      (fun p => (p.1, Json.str p.2))))]
  postMsg := fun result =>
    "Retrieved " ++ lenOrUnknown result ++ " available hosts"
  errLabel := "Failed to get available hosts: "

/-- Embedding of `quads_get_available_hosts` (quads_tools.py lines 213-256). -/
def quads_get_available_hosts (start end_ cloud : Option String) (ctx : Ctx)
    (cfg : Config) (net : HttpResult) : Invocation :=
  runGet (availableHostsSpec start end_ cloud cfg) ctx net

/-- The query parameters built by `quads_check_host_availability`
(lines 281-285). -/
def checkAvailParams (start end_ : Option String) : List (String × String) :=
  strParam "start" start ++ strParam "end" end_

/-- The GET gateway data of `quads_check_host_availability` (lines 259-300). -/
def checkAvailSpec (hostname : String) (start end_ : Option String)
    (cfg : Config) : GetSpec where
  preMsg := "Checking availability for host " ++ hostname ++
    " with parameters: " ++ pyDictRepr (checkAvailParams start end_)
  url := baseUrl cfg ++ "/available/" ++ hostname ++ "/"
  params := checkAvailParams start end_
  wrap := fun result => .obj [("hostname", .str hostname),
    ("availability", result),
    ("parameters", .obj ((checkAvailParams start end_).map
      (fun p => (p.1, Json.str p.2))))]
  postMsg := fun _ => "Checked availability for host " ++ hostname
  errLabel := "Failed to check host availability for " ++ hostname ++ ": "

/-- Embedding of `quads_check_host_availability` (quads_tools.py
lines 259-300). -/
def quads_check_host_availability (hostname : String)
    (start end_ : Option String) (ctx : Ctx) (cfg : Config)
    (net : HttpResult) : Invocation :=
  runGet (checkAvailSpec hostname start end_ cfg) ctx net

/-- The GET gateway data of `quads_get_schedules` (lines 303-334). -/
def schedulesSpec (cfg : Config) : GetSpec where
  preMsg := "Fetching all schedules from QUADS"
  url := baseUrl cfg ++ "/schedules/"
  params := []
  wrap := fun result => .obj [("schedules", result)]
  postMsg := fun result => "Retrieved " ++ lenOrUnknown result ++ " schedules"
  errLabel := "Failed to get schedules: "

/-- Embedding of `quads_get_schedules` (quads_tools.py lines 303-334). -/
def quads_get_schedules (ctx : Ctx) (cfg : Config) (net : HttpResult) :
    Invocation :=
  runGet (schedulesSpec cfg) ctx net

/-- The query parameters built by `quads_get_current_schedules`
(lines 359-365). -/
def currentSchedParams (date host cloud : Option String) :
    List (String × String) :=
  strParam "date" date ++ strParam "host" host ++ strParam "cloud" cloud

/-- The GET gateway data of `quads_get_current_schedules` (lines 337-380). -/
def currentSchedSpec (date host cloud : Option String) (cfg : Config) :
    GetSpec where
  preMsg := "Fetching current schedules with parameters: " ++
    pyDictRepr (currentSchedParams date host cloud)
  url := baseUrl cfg ++ "/schedules/current/"
  params := currentSchedParams date host cloud
  wrap := fun result => .obj [("current_schedules", result),
    ("parameters", .obj ((currentSchedParams date host cloud).map
      (fun p => (p.1, Json.str p.2))))]
  postMsg := fun _ => "Retrieved current schedules"
  errLabel := "Failed to get current schedules: "

/-- Embedding of `quads_get_current_schedules` (quads_tools.py
lines 337-380). -/
def quads_get_current_schedules (date host cloud : Option String) (ctx : Ctx)
    (cfg : Config) (net : HttpResult) : Invocation :=
  runGet (currentSchedSpec date host cloud cfg) ctx net

/-- The GET gateway data of `quads_get_assignments` (lines 383-414). -/
def assignmentsSpec (cfg : Config) : GetSpec where
  preMsg := "Fetching all assignments from QUADS"
  url := baseUrl cfg ++ "/assignments/"
  params := []
  wrap := fun result => .obj [("assignments", result)]
  postMsg := fun _ => "Retrieved assignments"
  errLabel := "Failed to get assignments: "

/-- Embedding of `quads_get_assignments` (quads_tools.py lines 383-414). -/
def quads_get_assignments (ctx : Ctx) (cfg : Config) (net : HttpResult) :
    Invocation :=
  runGet (assignmentsSpec cfg) ctx net

/-- The JSON echo of the `cloud_name` argument under the "cloud_filter" key of
`quads_get_active_assignments`: Python `None` serializes to JSON null. -/
def optStrJson : Option String → Json
  | none => .null
  | some s => .str s

/-- The GET gateway data of `quads_get_active_assignments` (lines 417-454).
A truthy `cloud_name` selects the per-cloud path and logs a per-cloud message;
`None` or the empty string select the collection endpoint. -/
def activeAssignSpec (cloud_name : Option String) (cfg : Config) : GetSpec where
  preMsg :=
    if pyTruthy cloud_name then
      "Fetching active assignments for cloud: " ++ cloud_name.getD ""
    else
      "Fetching all active assignments"
  url :=
    if pyTruthy cloud_name then
      baseUrl cfg ++ "/assignments/active/" ++ cloud_name.getD "" ++ "/"
    else
      baseUrl cfg ++ "/assignments/active/"
  params := []
  wrap := fun result => .obj [("active_assignments", result),
    ("cloud_filter", optStrJson cloud_name)]
  postMsg := fun _ => "Retrieved active assignments"
  errLabel := "Failed to get active assignments: "

/-- Embedding of `quads_get_active_assignments` (quads_tools.py
lines 417-454). -/
def quads_get_active_assignments (cloud_name : Option String) (ctx : Ctx)
    (cfg : Config) (net : HttpResult) : Invocation :=
  runGet (activeAssignSpec cloud_name cfg) ctx net

/-- The query parameters built by `quads_get_moves` (lines 476-478). -/
def movesParams (date : Option String) : List (String × String) :=
  strParam "date" date

/-- The GET gateway data of `quads_get_moves` (lines 457-493). -/
def movesSpec (date : Option String) (cfg : Config) : GetSpec where
  preMsg := "Fetching moves with parameters: " ++ pyDictRepr (movesParams date)
  url := baseUrl cfg ++ "/moves/"
  params := movesParams date
  wrap := fun result => .obj [("moves", result),
    ("parameters", .obj ((movesParams date).map
      (fun p => (p.1, Json.str p.2))))]
  postMsg := fun result => "Retrieved " ++ lenOrUnknown result ++ " moves"
  errLabel := "Failed to get moves: "

/-- Embedding of `quads_get_moves` (quads_tools.py lines 457-493). -/
def quads_get_moves (date : Option String) (ctx : Ctx) (cfg : Config)
    (net : HttpResult) : Invocation :=
  runGet (movesSpec date cfg) ctx net

/-- The GET gateway data of `quads_get_version` (lines 496-527). -/
def versionSpec (cfg : Config) : GetSpec where
  preMsg := "Fetching QUADS version"
  url := baseUrl cfg ++ "/version/"
  params := []
  wrap := fun result => .obj [("version", result)]
  postMsg := fun _ => "Retrieved QUADS version"
  errLabel := "Failed to get version: "

/-- Embedding of `quads_get_version` (quads_tools.py lines 496-527). -/
def quads_get_version (ctx : Ctx) (cfg : Config) (net : HttpResult) :
    Invocation :=
  runGet (versionSpec cfg) ctx net

/-- Lookup of a query parameter value in a parameter set (first match wins). -/
def paramLookup : List (String × String) → String → Option String
  | [], _ => none
  | (k, v) :: rest, key => if k = key then some v else paramLookup rest key

/-- The diagnostic-message discipline of one tool (as a function of the HTTP
outcome, with the context fixed): every failure path (transport failure,
non-2xx response, decode failure) emits exactly one error-level message, after
the single pre-request informational message; every success path emits exactly
two informational messages and no error-level message. -/
def logDiscipline (run : HttpResult → Invocation) : Prop :=
  (∀ m, countLevel .error (run (.failure m)).2.1 = 1 ∧
        countLevel .info (run (.failure m)).2.1 = 1) ∧
  (∀ s b, s < 200 ∨ 300 ≤ s →
      countLevel .error (run (.response s b)).2.1 = 1 ∧
      countLevel .info (run (.response s b)).2.1 = 1) ∧
  (∀ s, 200 ≤ s → s < 300 →
      countLevel .error (run (.response s none)).2.1 = 1 ∧
      countLevel .info (run (.response s none)).2.1 = 1) ∧
  (∀ s j, 200 ≤ s → s < 300 →
      countLevel .error (run (.response s (some j))).2.1 = 0 ∧
      countLevel .info (run (.response s (some j))).2.1 = 2)

/-- The request discipline of one tool (as a function of context and HTTP
outcome): every issued request carries the fixed 30-unit timeout, at most one
request is issued per invocation, and a transport failure (e.g. a timeout
expiry) still corresponds to exactly one issued request — no automatic
retry. -/
def singleTimedRequest (run : Ctx → HttpResult → Invocation) : Prop :=
  (∀ ctx net, ((run ctx net).2.2).all (fun r => r.timeout == 30) = true) ∧
  (∀ ctx net, ((run ctx net).2.2).length ≤ 1) ∧
  (∀ m, ((run .present (.failure m)).2.2).length = 1)

theorem runGet_absent (g : GetSpec) (net : HttpResult) :
    runGet g .absent net = (.error (.attributeError noneCtxMsg), [], []) := rfl

theorem runGet_failure (g : GetSpec) (m : String) :
    runGet g .present (.failure m) =
      (.ok (.obj [("error", .str (g.errLabel ++ m))]),
       [(.info, g.preMsg), (.error, g.errLabel ++ m)],
       [⟨"GET", g.url, g.params, 30, none⟩]) := rfl

theorem runGet_non2xx (g : GetSpec) (s : Nat) (b : Option Json)
    (h : s < 200 ∨ 300 ≤ s) :
    runGet g .present (.response s b) =
      (.ok (.obj [("error", .str (g.errLabel ++ httpErrStr s g.url))]),
       [(.info, g.preMsg), (.error, g.errLabel ++ httpErrStr s g.url)],
       [⟨"GET", g.url, g.params, 30, none⟩]) := by
  simp only [runGet]
  rw [if_pos h]
  rfl

theorem runGet_decodeFail (g : GetSpec) (s : Nat)
    (h1 : 200 ≤ s) (h2 : s < 300) :
    runGet g .present (.response s none) =
      (.ok (.obj [("error", .str (g.errLabel ++ jsonDecodeErrStr))]),
       [(.info, g.preMsg), (.error, g.errLabel ++ jsonDecodeErrStr)],
       [⟨"GET", g.url, g.params, 30, none⟩]) := by
  simp only [runGet]
  rw [if_neg (by omega)]
  rfl

theorem runGet_success (g : GetSpec) (s : Nat) (j : Json)
    (h1 : 200 ≤ s) (h2 : s < 300) :
    runGet g .present (.response s (some j)) =
      (.ok (g.wrap j),
       [(.info, g.preMsg), (.info, g.postMsg j)],
       [⟨"GET", g.url, g.params, 30, none⟩]) := by
  simp only [runGet]
  rw [if_neg (by omega)]
  rfl

theorem runGet_ok_shape (g : GetSpec) (net : HttpResult) (env : Json)
    (h : (runGet g .present net).1 = .ok env) :
    (∃ j, env = g.wrap j) ∨ ∃ m, env = .obj [("error", .str m)] := by
  cases net with
  | failure m =>
      rw [runGet_failure] at h
      exact Or.inr ⟨g.errLabel ++ m, (Except.ok.inj h).symm⟩
  | response s b =>
      by_cases hs : s < 200 ∨ 300 ≤ s
      · rw [runGet_non2xx g s b hs] at h
        exact Or.inr ⟨g.errLabel ++ httpErrStr s g.url, (Except.ok.inj h).symm⟩
      · have h1 : 200 ≤ s := by omega
        have h2 : s < 300 := by omega
        cases b with
        | none =>
            rw [runGet_decodeFail g s h1 h2] at h
            exact Or.inr ⟨g.errLabel ++ jsonDecodeErrStr, (Except.ok.inj h).symm⟩
        | some j =>
            rw [runGet_success g s j h1 h2] at h
            exact Or.inl ⟨j, (Except.ok.inj h).symm⟩

theorem getTool_shape (g : GetSpec) (key : String) (net : HttpResult)
    (env : Json)
    (hwrap : ∀ j, (g.wrap j).hasKey key = true ∧ (g.wrap j).hasKey "error" = false)
    (h : (runGet g .present net).1 = .ok env) :
    (env.hasKey key = true ∧ env.hasKey "error" = false) ∨
      ∃ m, env = .obj [("error", .str m)] := by
  rcases runGet_ok_shape g net env h with ⟨j, rfl⟩ | hm
  · exact Or.inl (hwrap j)
  · exact Or.inr hm

theorem runGet_logDiscipline (g : GetSpec) :
    logDiscipline (runGet g .present) := by
  refine ⟨fun m => ?_, fun s b hs => ?_, fun s h1 h2 => ?_, fun s j h1 h2 => ?_⟩
  · rw [runGet_failure]; exact ⟨rfl, rfl⟩
  · rw [runGet_non2xx g s b hs]; exact ⟨rfl, rfl⟩
  · rw [runGet_decodeFail g s h1 h2]; exact ⟨rfl, rfl⟩
  · rw [runGet_success g s j h1 h2]; exact ⟨rfl, rfl⟩

theorem runGet_reqs_present (g : GetSpec) (net : HttpResult) :
    (runGet g .present net).2.2 = [⟨"GET", g.url, g.params, 30, none⟩] := by
  cases net with
  | failure m => rfl
  | response s b =>
      by_cases hs : s < 200 ∨ 300 ≤ s
      · rw [runGet_non2xx g s b hs]
      · cases b with
        | none => rw [runGet_decodeFail g s (by omega) (by omega)]
        | some j => rw [runGet_success g s j (by omega) (by omega)]

theorem runGet_present_returns (g : GetSpec) (net : HttpResult) :
    ((runGet g .present net).1).isOk = true := by
  cases net with
  | failure m => rfl
  | response s b =>
      by_cases hs : s < 200 ∨ 300 ≤ s
      · rw [runGet_non2xx g s b hs]; rfl
      · cases b with
        | none => rw [runGet_decodeFail g s (by omega) (by omega)]; rfl
        | some j => rw [runGet_success g s j (by omega) (by omega)]; rfl

theorem runGet_singleTimedRequest (g : GetSpec) :
    singleTimedRequest (runGet g) := by
  refine ⟨fun ctx net => ?_, fun ctx net => ?_, fun m => ?_⟩
  · cases ctx with
    | absent => rfl
    | present => rw [runGet_reqs_present]; rfl
  · cases ctx with
    | absent => exact Nat.zero_le 1
    | present => rw [runGet_reqs_present]; exact Nat.le_refl 1
  · rw [runGet_reqs_present]; rfl

theorem quads_login_failure (u p : String) (cfg : Config) (m : String) :
    quads_login u p .present cfg (.failure m) =
      (.ok (.obj [("error", .str ("Login error: " ++ m))]),
       [(.info, "Logging in to QUADS API at " ++ baseUrl cfg),
        (.error, "Login error: " ++ m)],
       [⟨"POST", baseUrl cfg ++ "/login/", [], 30, some (u, p)⟩]) := rfl

theorem quads_login_non2xx (u p : String) (cfg : Config) (s : Nat)
    (b : Option Json) (h : s < 200 ∨ 300 ≤ s) :
    quads_login u p .present cfg (.response s b) =
      (.ok (.obj [("error", .str ("Login failed: HTTP " ++ toString s)),
                  ("status_code", .num s)]),
       [(.info, "Logging in to QUADS API at " ++ baseUrl cfg),
        (.error, "Login failed: HTTP " ++ toString s)],
       [⟨"POST", baseUrl cfg ++ "/login/", [], 30, some (u, p)⟩]) := by
  simp only [quads_login]
  rw [if_pos h]
  rfl

theorem quads_login_decodeFail (u p : String) (cfg : Config) (s : Nat)
    (h1 : 200 ≤ s) (h2 : s < 300) :
    quads_login u p .present cfg (.response s none) =
      (.ok (.obj [("error", .str ("Login error: " ++ jsonDecodeErrStr))]),
       [(.info, "Logging in to QUADS API at " ++ baseUrl cfg),
        (.error, "Login error: " ++ jsonDecodeErrStr)],
       [⟨"POST", baseUrl cfg ++ "/login/", [], 30, some (u, p)⟩]) := by
  simp only [quads_login]
  rw [if_neg (by omega)]
  rfl

theorem quads_login_success (u p : String) (cfg : Config) (s : Nat) (j : Json)
    (h1 : 200 ≤ s) (h2 : s < 300) :
    quads_login u p .present cfg (.response s (some j)) =
      (.ok j,
       [(.info, "Logging in to QUADS API at " ++ baseUrl cfg),
        (.info, "Successfully logged in to QUADS")],
       [⟨"POST", baseUrl cfg ++ "/login/", [], 30, some (u, p)⟩]) := by
  simp only [quads_login]
  rw [if_neg (by omega)]
  rfl

theorem quads_login_logDiscipline (u p : String) (cfg : Config) :
    logDiscipline (quads_login u p .present cfg) := by
  refine ⟨fun m => ?_, fun s b hs => ?_, fun s h1 h2 => ?_, fun s j h1 h2 => ?_⟩
  · rw [quads_login_failure]; exact ⟨rfl, rfl⟩
  · rw [quads_login_non2xx u p cfg s b hs]; exact ⟨rfl, rfl⟩
  · rw [quads_login_decodeFail u p cfg s h1 h2]; exact ⟨rfl, rfl⟩
  · rw [quads_login_success u p cfg s j h1 h2]; exact ⟨rfl, rfl⟩

theorem quads_login_reqs_present (u p : String) (cfg : Config)
    (net : HttpResult) :
    (quads_login u p .present cfg net).2.2 =
      [⟨"POST", baseUrl cfg ++ "/login/", [], 30, some (u, p)⟩] := by
  cases net with
  | failure m => rfl
  | response s b =>
      by_cases hs : s < 200 ∨ 300 ≤ s
      · rw [quads_login_non2xx u p cfg s b hs]
      · cases b with
        | none => rw [quads_login_decodeFail u p cfg s (by omega) (by omega)]
        | some j => rw [quads_login_success u p cfg s j (by omega) (by omega)]

theorem quads_login_present_returns (u p : String) (cfg : Config)
    (net : HttpResult) :
    ((quads_login u p .present cfg net).1).isOk = true := by
  cases net with
  | failure m => rfl
  | response s b =>
      by_cases hs : s < 200 ∨ 300 ≤ s
      · rw [quads_login_non2xx u p cfg s b hs]; rfl
      · cases b with
        | none => rw [quads_login_decodeFail u p cfg s (by omega) (by omega)]; rfl
        | some j => rw [quads_login_success u p cfg s j (by omega) (by omega)]; rfl

theorem quads_login_singleTimedRequest (u p : String) (cfg : Config) :
    singleTimedRequest (fun ctx net => quads_login u p ctx cfg net) := by
  refine ⟨fun ctx net => ?_, fun ctx net => ?_, fun m => ?_⟩
  · cases ctx with
    | absent => rfl
    | present => rw [quads_login_reqs_present]; rfl
  · cases ctx with
    | absent => exact Nat.zero_le 1
    | present => rw [quads_login_reqs_present]; exact Nat.le_refl 1
  · rw [quads_login_reqs_present]; rfl

theorem strParam_keys (k key : String) (v : Option String) (hne : key ≠ k) :
    key ∉ (strParam k v).map Prod.fst := by
  cases v with
  | none => simp [strParam]
  | some s =>
      simp only [strParam]
      split
      · simpa using hne
      · simp

theorem boolParam_keys (k key : String) (v : Option Bool) (hne : key ≠ k) :
    key ∉ (boolParam k v).map Prod.fst := by
  cases v with
  | none => simp [boolParam]
  | some b => simpa [boolParam] using hne

theorem not_mem_map_append {α β : Type} (f : α → β) {l1 l2 : List α} {x : β}
    (h1 : x ∉ l1.map f) (h2 : x ∉ l2.map f) : x ∉ (l1 ++ l2).map f := by
  rw [List.map_append]
  intro hx
  rcases List.mem_append.mp hx with h | h
  · exact h1 h
  · exact h2 h

theorem paramLookup_append_left (l1 l2 : List (String × String)) (key : String)
    (h : key ∉ l1.map Prod.fst) :
    paramLookup (l1 ++ l2) key = paramLookup l2 key := by
  induction l1 with
  | nil => rfl
  | cons p rest ih =>
      obtain ⟨k, v⟩ := p
      simp only [List.map_cons, List.mem_cons] at h
      push_neg at h
      simp only [List.cons_append, paramLookup]
      rw [if_neg (fun hk => h.1 hk.symm)]
      exact ih h.2


theorem strParam_none_keys (k key : String) :
    key ∉ (strParam k none).map Prod.fst := by
  simp [strParam]

theorem boolParam_none_keys (k key : String) :
    key ∉ (boolParam k none).map Prod.fst := by
  simp [boolParam]

theorem runGet_reqs_congr (g1 g2 : GetSpec) (hurl : g1.url = g2.url)
    (hparams : g1.params = g2.params) (ctx : Ctx) (net : HttpResult) :
    (runGet g1 ctx net).2.2 = (runGet g2 ctx net).2.2 := by
  cases ctx with
  | absent => rfl
  | present => rw [runGet_reqs_present, runGet_reqs_present, hurl, hparams]

theorem runGet_non2xx_single_error (g : GetSpec) (s : Nat) (b : Option Json)
    (h : s < 200 ∨ 300 ≤ s) :
    ∃ msg, (runGet g .present (.response s b)).1 =
      .ok (.obj [("error", .str msg)]) := by
  rw [runGet_non2xx g s b h]
  exact ⟨g.errLabel ++ httpErrStr s g.url, rfl⟩

/-- C4: for every tool with optional filter arguments, an argument left unset
(`None`) is absent from the outbound request's query parameter set; with all
filter arguments unset the parameter set is empty, and in particular
`quads_get_hosts` with no arguments issues its single request with an empty
parameter set. -/
theorem unset_filters_absent :
    (∀ model host_type broken,
      "name" ∉ (hostsParams none model host_type broken).map Prod.fst) ∧
    (∀ name host_type broken,
      "model" ∉ (hostsParams name none host_type broken).map Prod.fst) ∧
    (∀ name model broken,
      "host_type" ∉ (hostsParams name model none broken).map Prod.fst) ∧
    (∀ name model host_type,
      "broken" ∉ (hostsParams name model host_type none).map Prod.fst) ∧
    hostsParams none none none none = [] ∧
    (∀ cfg net,
      (quads_get_hosts none none none none Ctx.present cfg net).2.2 =
        [⟨"GET", baseUrl cfg ++ "/hosts/", [], 30, none⟩]) ∧
    (∀ end_ cloud, "start" ∉ (availableParams none end_ cloud).map Prod.fst) ∧
    (∀ start cloud, "end" ∉ (availableParams start none cloud).map Prod.fst) ∧
    (∀ start end_, "cloud" ∉ (availableParams start end_ none).map Prod.fst) ∧
    availableParams none none none = [] ∧
    (∀ host cloud, "date" ∉ (currentSchedParams none host cloud).map Prod.fst) ∧
    (∀ date cloud, "host" ∉ (currentSchedParams date none cloud).map Prod.fst) ∧
    (∀ date host, "cloud" ∉ (currentSchedParams date host none).map Prod.fst) ∧
    currentSchedParams none none none = [] ∧
    (∀ end_, "start" ∉ (checkAvailParams none end_).map Prod.fst) ∧
    (∀ start, "end" ∉ (checkAvailParams start none).map Prod.fst) ∧
    checkAvailParams none none = [] ∧
    movesParams none = [] := by
  refine ⟨?_, ?_, ?_, ?_, rfl, ?_, ?_, ?_, ?_, rfl, ?_, ?_, ?_, rfl, ?_, ?_,
    rfl, rfl⟩
  · intro model host_type broken
    unfold hostsParams
    exact not_mem_map_append _
      (not_mem_map_append _
        (not_mem_map_append _ (strParam_none_keys _ _)
          (strParam_keys _ _ _ (by decide)))
        (strParam_keys _ _ _ (by decide)))
      (boolParam_keys _ _ _ (by decide))
  · intro name host_type broken
    unfold hostsParams
    exact not_mem_map_append _
      (not_mem_map_append _
        (not_mem_map_append _ (strParam_keys _ _ _ (by decide))
          (strParam_none_keys _ _))
        (strParam_keys _ _ _ (by decide)))
      (boolParam_keys _ _ _ (by decide))
  · intro name model broken
    unfold hostsParams
    exact not_mem_map_append _
      (not_mem_map_append _
        (not_mem_map_append _ (strParam_keys _ _ _ (by decide))
          (strParam_keys _ _ _ (by decide)))
        (strParam_none_keys _ _))
      (boolParam_keys _ _ _ (by decide))
  · intro name model host_type
    unfold hostsParams
    exact not_mem_map_append _
      (not_mem_map_append _
        (not_mem_map_append _ (strParam_keys _ _ _ (by decide))
          (strParam_keys _ _ _ (by decide)))
        (strParam_keys _ _ _ (by decide)))
      (boolParam_none_keys _ _)
  · exact fun cfg net => runGet_reqs_present (hostsSpec none none none none cfg) net
  · intro end_ cloud
    unfold availableParams
    exact not_mem_map_append _
      (not_mem_map_append _ (strParam_none_keys _ _)
        (strParam_keys _ _ _ (by decide)))
      (strParam_keys _ _ _ (by decide))
  · intro start cloud
    unfold availableParams
    exact not_mem_map_append _
      (not_mem_map_append _ (strParam_keys _ _ _ (by decide))
        (strParam_none_keys _ _))
      (strParam_keys _ _ _ (by decide))
  · intro start end_
    unfold availableParams
    exact not_mem_map_append _
      (not_mem_map_append _ (strParam_keys _ _ _ (by decide))
        (strParam_keys _ _ _ (by decide)))
      (strParam_none_keys _ _)
  · intro host cloud
    unfold currentSchedParams
    exact not_mem_map_append _
      (not_mem_map_append _ (strParam_none_keys _ _)
        (strParam_keys _ _ _ (by decide)))
      (strParam_keys _ _ _ (by decide))
  · intro date cloud
    unfold currentSchedParams
    exact not_mem_map_append _
      (not_mem_map_append _ (strParam_keys _ _ _ (by decide))
        (strParam_none_keys _ _))
      (strParam_keys _ _ _ (by decide))
  · intro date host
    unfold currentSchedParams
    exact not_mem_map_append _
      (not_mem_map_append _ (strParam_keys _ _ _ (by decide))
        (strParam_keys _ _ _ (by decide)))
      (strParam_none_keys _ _)
  · intro end_
    unfold checkAvailParams
    exact not_mem_map_append _ (strParam_none_keys _ _)
      (strParam_keys _ _ _ (by decide))
  · intro start
    unfold checkAvailParams
    exact not_mem_map_append _ (strParam_keys _ _ _ (by decide))
      (strParam_none_keys _ _)

/-- C5: when the boolean filter argument `broken` of `quads_get_hosts` is set
(whether to True or to False), the "broken" query parameter value is the
literal lowercase string "true" or "false" — never "True" and never "1" — and
the parameter set built this way is exactly what the single outbound request
carries. -/
theorem broken_serializes_lowercase :
    (∀ name model host_type (b : Bool),
      paramLookup (hostsParams name model host_type (some b)) "broken" =
        some (pyBoolLower b)) ∧
    (∀ b : Bool, (pyBoolLower b = "true" ∨ pyBoolLower b = "false") ∧
      pyBoolLower b ≠ "True" ∧ pyBoolLower b ≠ "1") ∧
    (∀ name model host_type broken cfg net,
      (quads_get_hosts name model host_type broken Ctx.present cfg net).2.2 =
        [⟨"GET", baseUrl cfg ++ "/hosts/",
          hostsParams name model host_type broken, 30, none⟩]) := by
  refine ⟨?_, ?_, ?_⟩
  · intro name model host_type b
    unfold hostsParams
    rw [paramLookup_append_left _ _ _
      (not_mem_map_append _
        (not_mem_map_append _ (strParam_keys _ _ _ (by decide))
          (strParam_keys _ _ _ (by decide)))
        (strParam_keys _ _ _ (by decide)))]
    rfl
  · intro b
    cases b with
    | true => exact ⟨Or.inl rfl, by decide, by decide⟩
    | false => exact ⟨Or.inr rfl, by decide, by decide⟩
  · exact fun name model host_type broken cfg net =>
      runGet_reqs_present (hostsSpec name model host_type broken cfg) net

/-- C6: every successful (2xx, JSON-decodable) response to
`quads_get_free_clouds` is wrapped unchanged under the "free_clouds" key. -/
theorem free_clouds_wraps_payload (cfg : Config) (s : Nat) (j : Json)
    (h1 : 200 ≤ s) (h2 : s < 300) :
    (quads_get_free_clouds Ctx.present cfg (.response s (some j))).1 =
      .ok (.obj [("free_clouds", j)]) := by
  show (runGet (freeCloudsSpec cfg) .present (.response s (some j))).1 = _
  rw [runGet_success _ s j h1 h2]
  rfl

/-- Witness for C6: the decoded array ["cloud01","cloud02"] on a 200 response
yields exactly the envelope with that array under "free_clouds". -/
theorem free_clouds_wraps_payload_witness :
    (200 ≤ 200 ∧ 200 < 300) ∧
    (quads_get_free_clouds Ctx.present defaultCfg (HttpResult.response 200
        (some (Json.arr [Json.str "cloud01", Json.str "cloud02"])))).1 =
      Except.ok (Json.obj [("free_clouds",
        Json.arr [Json.str "cloud01", Json.str "cloud02"])]) :=
  ⟨⟨by decide, by decide⟩,
    free_clouds_wraps_payload defaultCfg 200
      (Json.arr [Json.str "cloud01", Json.str "cloud02"])
      (by decide) (by decide)⟩

theorem runGet_decode_failure_envelope (g : GetSpec) (s : Nat)
    (h1 : 200 ≤ s) (h2 : s < 300) :
    (runGet g .present (.response s none)).1 =
      .ok (.obj [("error", .str (g.errLabel ++ jsonDecodeErrStr))]) := by
  rw [runGet_decodeFail g s h1 h2]

theorem quads_login_decode_failure_envelope (u p : String) (cfg : Config)
    (s : Nat) (h1 : 200 ≤ s) (h2 : s < 300) :
    (quads_login u p .present cfg (.response s none)).1 =
      .ok (.obj [("error", .str ("Login error: " ++ jsonDecodeErrStr))]) := by
  rw [quads_login_decodeFail u p cfg s h1 h2]

/-- C7: on every tool, a transport failure (timeout, DNS failure, connection
refused) and equally a JSON decode failure (a 2xx response whose body does not
decode, which takes the same generic handler) yield an envelope whose single
key is "error", whose value is the operation-naming prefix followed by the
exception message, with no "status_code" key.  For each tool the first
conjunct covers the transport-failure case, the second the decode-failure
case. -/
theorem transport_failure_envelopes :
    ((∀ u p cfg m, (quads_login u p Ctx.present cfg (.failure m)).1 =
        .ok (.obj [("error", .str ("Login error: " ++ m))]) ∧
      (Json.obj [("error", Json.str ("Login error: " ++ m))]).hasKey
        "status_code" = false) ∧
     (∀ u p cfg (s : Nat), 200 ≤ s → s < 300 →
      (quads_login u p Ctx.present cfg (.response s none)).1 =
        .ok (.obj [("error", .str ("Login error: " ++ jsonDecodeErrStr))]) ∧
      (Json.obj [("error", Json.str ("Login error: " ++
        jsonDecodeErrStr))]).hasKey "status_code" = false)) ∧
    ((∀ cfg m, (quads_get_clouds Ctx.present cfg (.failure m)).1 =
        .ok (.obj [("error", .str ("Failed to get clouds: " ++ m))]) ∧
      (Json.obj [("error", Json.str ("Failed to get clouds: " ++ m))]).hasKey
        "status_code" = false) ∧
     (∀ cfg (s : Nat), 200 ≤ s → s < 300 →
      (quads_get_clouds Ctx.present cfg (.response s none)).1 =
        .ok (.obj [("error",
          .str ("Failed to get clouds: " ++ jsonDecodeErrStr))]) ∧
      (Json.obj [("error", Json.str ("Failed to get clouds: " ++
        jsonDecodeErrStr))]).hasKey "status_code" = false)) ∧
    ((∀ cfg m, (quads_get_free_clouds Ctx.present cfg (.failure m)).1 =
        .ok (.obj [("error", .str ("Failed to get free clouds: " ++ m))]) ∧
      (Json.obj [("error", Json.str ("Failed to get free clouds: " ++ m))]).hasKey
        "status_code" = false) ∧
     (∀ cfg (s : Nat), 200 ≤ s → s < 300 →
      (quads_get_free_clouds Ctx.present cfg (.response s none)).1 =
        .ok (.obj [("error",
          .str ("Failed to get free clouds: " ++ jsonDecodeErrStr))]) ∧
      (Json.obj [("error", Json.str ("Failed to get free clouds: " ++
        jsonDecodeErrStr))]).hasKey "status_code" = false)) ∧
    ((∀ name model host_type broken cfg m,
      (quads_get_hosts name model host_type broken Ctx.present cfg
          (.failure m)).1 =
        .ok (.obj [("error", .str ("Failed to get hosts: " ++ m))]) ∧
      (Json.obj [("error", Json.str ("Failed to get hosts: " ++ m))]).hasKey
        "status_code" = false) ∧
     (∀ name model host_type broken cfg (s : Nat), 200 ≤ s → s < 300 →
      (quads_get_hosts name model host_type broken Ctx.present cfg
          (.response s none)).1 =
        .ok (.obj [("error",
          .str ("Failed to get hosts: " ++ jsonDecodeErrStr))]) ∧
      (Json.obj [("error", Json.str ("Failed to get hosts: " ++
        jsonDecodeErrStr))]).hasKey "status_code" = false)) ∧
    ((∀ hostname cfg m,
      (quads_get_host_details hostname Ctx.present cfg (.failure m)).1 =
        .ok (.obj [("error", .str ("Failed to get host details for " ++
          hostname ++ ": " ++ m))]) ∧
      (Json.obj [("error", Json.str ("Failed to get host details for " ++
        hostname ++ ": " ++ m))]).hasKey "status_code" = false) ∧
     (∀ hostname cfg (s : Nat), 200 ≤ s → s < 300 →
      (quads_get_host_details hostname Ctx.present cfg (.response s none)).1 =
        .ok (.obj [("error", .str ("Failed to get host details for " ++
          hostname ++ ": " ++ jsonDecodeErrStr))]) ∧
      (Json.obj [("error", Json.str ("Failed to get host details for " ++
        hostname ++ ": " ++ jsonDecodeErrStr))]).hasKey
        "status_code" = false)) ∧
    ((∀ start end_ cloud cfg m,
      (quads_get_available_hosts start end_ cloud Ctx.present cfg
          (.failure m)).1 =
        .ok (.obj [("error", .str ("Failed to get available hosts: " ++ m))]) ∧
      (Json.obj [("error", Json.str ("Failed to get available hosts: " ++
        m))]).hasKey "status_code" = false) ∧
     (∀ start end_ cloud cfg (s : Nat), 200 ≤ s → s < 300 →
      (quads_get_available_hosts start end_ cloud Ctx.present cfg
          (.response s none)).1 =
        .ok (.obj [("error",
          .str ("Failed to get available hosts: " ++ jsonDecodeErrStr))]) ∧
      (Json.obj [("error", Json.str ("Failed to get available hosts: " ++
        jsonDecodeErrStr))]).hasKey "status_code" = false)) ∧
    ((∀ hostname start end_ cfg m,
      (quads_check_host_availability hostname start end_ Ctx.present cfg
          (.failure m)).1 =
        .ok (.obj [("error", .str ("Failed to check host availability for " ++
          hostname ++ ": " ++ m))]) ∧
      (Json.obj [("error", Json.str ("Failed to check host availability for " ++
        hostname ++ ": " ++ m))]).hasKey "status_code" = false) ∧
     (∀ hostname start end_ cfg (s : Nat), 200 ≤ s → s < 300 →
      (quads_check_host_availability hostname start end_ Ctx.present cfg
          (.response s none)).1 =
        .ok (.obj [("error", .str ("Failed to check host availability for " ++
          hostname ++ ": " ++ jsonDecodeErrStr))]) ∧
      (Json.obj [("error", Json.str ("Failed to check host availability for " ++
        hostname ++ ": " ++ jsonDecodeErrStr))]).hasKey
        "status_code" = false)) ∧
    ((∀ cfg m, (quads_get_schedules Ctx.present cfg (.failure m)).1 =
        .ok (.obj [("error", .str ("Failed to get schedules: " ++ m))]) ∧
      (Json.obj [("error", Json.str ("Failed to get schedules: " ++ m))]).hasKey
        "status_code" = false) ∧
     (∀ cfg (s : Nat), 200 ≤ s → s < 300 →
      (quads_get_schedules Ctx.present cfg (.response s none)).1 =
        .ok (.obj [("error",
          .str ("Failed to get schedules: " ++ jsonDecodeErrStr))]) ∧
      (Json.obj [("error", Json.str ("Failed to get schedules: " ++
        jsonDecodeErrStr))]).hasKey "status_code" = false)) ∧
    ((∀ date host cloud cfg m,
      (quads_get_current_schedules date host cloud Ctx.present cfg
          (.failure m)).1 =
        .ok (.obj [("error", .str ("Failed to get current schedules: " ++ m))]) ∧
      (Json.obj [("error", Json.str ("Failed to get current schedules: " ++
        m))]).hasKey "status_code" = false) ∧
     (∀ date host cloud cfg (s : Nat), 200 ≤ s → s < 300 →
      (quads_get_current_schedules date host cloud Ctx.present cfg
          (.response s none)).1 =
        .ok (.obj [("error",
          .str ("Failed to get current schedules: " ++ jsonDecodeErrStr))]) ∧
      (Json.obj [("error", Json.str ("Failed to get current schedules: " ++
        jsonDecodeErrStr))]).hasKey "status_code" = false)) ∧
    ((∀ cfg m, (quads_get_assignments Ctx.present cfg (.failure m)).1 =
        .ok (.obj [("error", .str ("Failed to get assignments: " ++ m))]) ∧
      (Json.obj [("error", Json.str ("Failed to get assignments: " ++
        m))]).hasKey "status_code" = false) ∧
     (∀ cfg (s : Nat), 200 ≤ s → s < 300 →
      (quads_get_assignments Ctx.present cfg (.response s none)).1 =
        .ok (.obj [("error",
          .str ("Failed to get assignments: " ++ jsonDecodeErrStr))]) ∧
      (Json.obj [("error", Json.str ("Failed to get assignments: " ++
        jsonDecodeErrStr))]).hasKey "status_code" = false)) ∧
    ((∀ cloud_name cfg m,
      (quads_get_active_assignments cloud_name Ctx.present cfg (.failure m)).1 =
        .ok (.obj [("error", .str ("Failed to get active assignments: " ++
          m))]) ∧
      (Json.obj [("error", Json.str ("Failed to get active assignments: " ++
        m))]).hasKey "status_code" = false) ∧
     (∀ cloud_name cfg (s : Nat), 200 ≤ s → s < 300 →
      (quads_get_active_assignments cloud_name Ctx.present cfg
          (.response s none)).1 =
        .ok (.obj [("error",
          .str ("Failed to get active assignments: " ++ jsonDecodeErrStr))]) ∧
      (Json.obj [("error", Json.str ("Failed to get active assignments: " ++
        jsonDecodeErrStr))]).hasKey "status_code" = false)) ∧
    ((∀ date cfg m, (quads_get_moves date Ctx.present cfg (.failure m)).1 =
        .ok (.obj [("error", .str ("Failed to get moves: " ++ m))]) ∧
      (Json.obj [("error", Json.str ("Failed to get moves: " ++ m))]).hasKey
        "status_code" = false) ∧
     (∀ date cfg (s : Nat), 200 ≤ s → s < 300 →
      (quads_get_moves date Ctx.present cfg (.response s none)).1 =
        .ok (.obj [("error",
          .str ("Failed to get moves: " ++ jsonDecodeErrStr))]) ∧
      (Json.obj [("error", Json.str ("Failed to get moves: " ++
        jsonDecodeErrStr))]).hasKey "status_code" = false)) ∧
    ((∀ cfg m, (quads_get_version Ctx.present cfg (.failure m)).1 =
        .ok (.obj [("error", .str ("Failed to get version: " ++ m))]) ∧
      (Json.obj [("error", Json.str ("Failed to get version: " ++ m))]).hasKey
        "status_code" = false) ∧
     (∀ cfg (s : Nat), 200 ≤ s → s < 300 →
      (quads_get_version Ctx.present cfg (.response s none)).1 =
        .ok (.obj [("error",
          .str ("Failed to get version: " ++ jsonDecodeErrStr))]) ∧
      (Json.obj [("error", Json.str ("Failed to get version: " ++
        jsonDecodeErrStr))]).hasKey "status_code" = false)) :=
  ⟨⟨fun _ _ _ _ => ⟨rfl, rfl⟩,
    fun u p cfg s h1 h2 =>
      ⟨quads_login_decode_failure_envelope u p cfg s h1 h2, rfl⟩⟩,
   ⟨fun _ _ => ⟨rfl, rfl⟩,
    fun cfg s h1 h2 =>
      ⟨runGet_decode_failure_envelope (cloudsSpec cfg) s h1 h2, rfl⟩⟩,
   ⟨fun _ _ => ⟨rfl, rfl⟩,
    fun cfg s h1 h2 =>
      ⟨runGet_decode_failure_envelope (freeCloudsSpec cfg) s h1 h2, rfl⟩⟩,
   ⟨fun _ _ _ _ _ _ => ⟨rfl, rfl⟩,
    fun name model host_type broken cfg s h1 h2 =>
      ⟨runGet_decode_failure_envelope
        (hostsSpec name model host_type broken cfg) s h1 h2, rfl⟩⟩,
   ⟨fun _ _ _ => ⟨rfl, rfl⟩,
    fun hostname cfg s h1 h2 =>
      ⟨runGet_decode_failure_envelope (hostDetailsSpec hostname cfg) s h1 h2,
        rfl⟩⟩,
   ⟨fun _ _ _ _ _ => ⟨rfl, rfl⟩,
    fun start end_ cloud cfg s h1 h2 =>
      ⟨runGet_decode_failure_envelope
        (availableHostsSpec start end_ cloud cfg) s h1 h2, rfl⟩⟩,
   ⟨fun _ _ _ _ _ => ⟨rfl, rfl⟩,
    fun hostname start end_ cfg s h1 h2 =>
      ⟨runGet_decode_failure_envelope
        (checkAvailSpec hostname start end_ cfg) s h1 h2, rfl⟩⟩,
   ⟨fun _ _ => ⟨rfl, rfl⟩,
    fun cfg s h1 h2 =>
      ⟨runGet_decode_failure_envelope (schedulesSpec cfg) s h1 h2, rfl⟩⟩,
   ⟨fun _ _ _ _ _ => ⟨rfl, rfl⟩,
    fun date host cloud cfg s h1 h2 =>
      ⟨runGet_decode_failure_envelope
        (currentSchedSpec date host cloud cfg) s h1 h2, rfl⟩⟩,
   ⟨fun _ _ => ⟨rfl, rfl⟩,
    fun cfg s h1 h2 =>
      ⟨runGet_decode_failure_envelope (assignmentsSpec cfg) s h1 h2, rfl⟩⟩,
   ⟨fun _ _ _ => ⟨rfl, rfl⟩,
    fun cloud_name cfg s h1 h2 =>
      ⟨runGet_decode_failure_envelope (activeAssignSpec cloud_name cfg) s h1 h2,
        rfl⟩⟩,
   ⟨fun _ _ _ => ⟨rfl, rfl⟩,
    fun date cfg s h1 h2 =>
      ⟨runGet_decode_failure_envelope (movesSpec date cfg) s h1 h2, rfl⟩⟩,
   ⟨fun _ _ => ⟨rfl, rfl⟩,
    fun cfg s h1 h2 =>
      ⟨runGet_decode_failure_envelope (versionSpec cfg) s h1 h2, rfl⟩⟩⟩

/-- Witness for C7: a 200 response with an undecodable body on quads_login
yields the single-key decode-failure error envelope, and a concrete transport
failure on quads_get_version yields its single-key error envelope. -/
theorem transport_failure_envelopes_witness :
    (200 ≤ 200 ∧ 200 < 300) ∧
    (quads_login "u" "p" Ctx.present defaultCfg
        (HttpResult.response 200 none)).1 =
      Except.ok (Json.obj [("error",
        Json.str ("Login error: " ++ jsonDecodeErrStr))]) ∧
    (quads_get_version Ctx.present defaultCfg
        (HttpResult.failure "timed out")).1 =
      Except.ok (Json.obj [("error",
        Json.str ("Failed to get version: " ++ "timed out"))]) :=
  ⟨⟨by decide, by decide⟩,
   (transport_failure_envelopes.1.2 "u" "p" defaultCfg 200
     (by decide) (by decide)).1,
   (transport_failure_envelopes.2.2.2.2.2.2.2.2.2.2.2.2.1 defaultCfg
     "timed out").1⟩

/-- C9: every outbound request of every tool carries the fixed 30-unit
per-call timeout; at most one request is issued per invocation, and a
transport failure (such as a timeout expiry) still corresponds to exactly one
issued request — there is no automatic retry. -/
theorem fixed_timeout_no_retry :
    (∀ u p cfg,
      singleTimedRequest (fun ctx net => quads_login u p ctx cfg net)) ∧
    (∀ cfg, singleTimedRequest (fun ctx net => quads_get_clouds ctx cfg net)) ∧
    (∀ cfg,
      singleTimedRequest (fun ctx net => quads_get_free_clouds ctx cfg net)) ∧
    (∀ name model host_type broken cfg,
      singleTimedRequest (fun ctx net =>
        quads_get_hosts name model host_type broken ctx cfg net)) ∧
    (∀ hostname cfg,
      singleTimedRequest (fun ctx net =>
        quads_get_host_details hostname ctx cfg net)) ∧
    (∀ start end_ cloud cfg,
      singleTimedRequest (fun ctx net =>
        quads_get_available_hosts start end_ cloud ctx cfg net)) ∧
    (∀ hostname start end_ cfg,
      singleTimedRequest (fun ctx net =>
        quads_check_host_availability hostname start end_ ctx cfg net)) ∧
    (∀ cfg, singleTimedRequest (fun ctx net => quads_get_schedules ctx cfg net)) ∧
    (∀ date host cloud cfg,
      singleTimedRequest (fun ctx net =>
        quads_get_current_schedules date host cloud ctx cfg net)) ∧
    (∀ cfg,
      singleTimedRequest (fun ctx net => quads_get_assignments ctx cfg net)) ∧
    (∀ cloud_name cfg,
      singleTimedRequest (fun ctx net =>
        quads_get_active_assignments cloud_name ctx cfg net)) ∧
    (∀ date cfg,
      singleTimedRequest (fun ctx net => quads_get_moves date ctx cfg net)) ∧
    (∀ cfg, singleTimedRequest (fun ctx net => quads_get_version ctx cfg net)) :=
  ⟨fun u p cfg => quads_login_singleTimedRequest u p cfg,
   fun cfg => runGet_singleTimedRequest (cloudsSpec cfg),
   fun cfg => runGet_singleTimedRequest (freeCloudsSpec cfg),
   fun name model host_type broken cfg =>
     runGet_singleTimedRequest (hostsSpec name model host_type broken cfg),
   fun hostname cfg => runGet_singleTimedRequest (hostDetailsSpec hostname cfg),
   fun start end_ cloud cfg =>
     runGet_singleTimedRequest (availableHostsSpec start end_ cloud cfg),
   fun hostname start end_ cfg =>
     runGet_singleTimedRequest (checkAvailSpec hostname start end_ cfg),
   fun cfg => runGet_singleTimedRequest (schedulesSpec cfg),
   fun date host cloud cfg =>
     runGet_singleTimedRequest (currentSchedSpec date host cloud cfg),
   fun cfg => runGet_singleTimedRequest (assignmentsSpec cfg),
   fun cloud_name cfg =>
     runGet_singleTimedRequest (activeAssignSpec cloud_name cfg),
   fun date cfg => runGet_singleTimedRequest (movesSpec date cfg),
   fun cfg => runGet_singleTimedRequest (versionSpec cfg)⟩

/-- C10: passing the empty string for a string filter argument behaves exactly
like leaving it unset — the parameter is omitted (for the parameterized tools
the whole invocation is unchanged), and for `quads_get_active_assignments` an
empty `cloud_name` selects the collection endpoint /assignments/active/
exactly as `None` does. -/
theorem empty_string_same_as_unset :
    (∀ key, strParam key (some "") = strParam key none) ∧
    (∀ model host_type broken ctx cfg net,
      quads_get_hosts (some "") model host_type broken ctx cfg net =
        quads_get_hosts none model host_type broken ctx cfg net) ∧
    (∀ name host_type broken ctx cfg net,
      quads_get_hosts name (some "") host_type broken ctx cfg net =
        quads_get_hosts name none host_type broken ctx cfg net) ∧
    (∀ name model broken ctx cfg net,
      quads_get_hosts name model (some "") broken ctx cfg net =
        quads_get_hosts name model none broken ctx cfg net) ∧
    (∀ end_ cloud ctx cfg net,
      quads_get_available_hosts (some "") end_ cloud ctx cfg net =
        quads_get_available_hosts none end_ cloud ctx cfg net) ∧
    (∀ start cloud ctx cfg net,
      quads_get_available_hosts start (some "") cloud ctx cfg net =
        quads_get_available_hosts start none cloud ctx cfg net) ∧
    (∀ start end_ ctx cfg net,
      quads_get_available_hosts start end_ (some "") ctx cfg net =
        quads_get_available_hosts start end_ none ctx cfg net) ∧
    (∀ hostname end_ ctx cfg net,
      quads_check_host_availability hostname (some "") end_ ctx cfg net =
        quads_check_host_availability hostname none end_ ctx cfg net) ∧
    (∀ hostname start ctx cfg net,
      quads_check_host_availability hostname start (some "") ctx cfg net =
        quads_check_host_availability hostname start none ctx cfg net) ∧
    (∀ host cloud ctx cfg net,
      quads_get_current_schedules (some "") host cloud ctx cfg net =
        quads_get_current_schedules none host cloud ctx cfg net) ∧
    (∀ date cloud ctx cfg net,
      quads_get_current_schedules date (some "") cloud ctx cfg net =
        quads_get_current_schedules date none cloud ctx cfg net) ∧
    (∀ date host ctx cfg net,
      quads_get_current_schedules date host (some "") ctx cfg net =
        quads_get_current_schedules date host none ctx cfg net) ∧
    (∀ ctx cfg net,
      quads_get_moves (some "") ctx cfg net =
        quads_get_moves none ctx cfg net) ∧
    (∀ ctx cfg net,
      (quads_get_active_assignments (some "") ctx cfg net).2.2 =
        (quads_get_active_assignments none ctx cfg net).2.2) ∧
    (∀ cfg net,
      (quads_get_active_assignments (some "") Ctx.present cfg net).2.2 =
        [⟨"GET", baseUrl cfg ++ "/assignments/active/", [], 30, none⟩]) :=
  ⟨fun _ => rfl,
   fun _ _ _ _ _ _ => rfl,
   fun _ _ _ _ _ _ => rfl,
   fun _ _ _ _ _ _ => rfl,
   fun _ _ _ _ _ => rfl,
   fun _ _ _ _ _ => rfl,
   fun _ _ _ _ _ => rfl,
   fun _ _ _ _ _ => rfl,
   fun _ _ _ _ _ => rfl,
   fun _ _ _ _ _ => rfl,
   fun _ _ _ _ _ => rfl,
   fun _ _ _ _ _ => rfl,
   fun _ _ _ => rfl,
   fun ctx cfg net =>
     runGet_reqs_congr (activeAssignSpec (some "") cfg)
       (activeAssignSpec none cfg) rfl rfl ctx net,
   fun cfg net => runGet_reqs_present (activeAssignSpec (some "") cfg) net⟩

/-- C1 counterexample: a 404 response to `quads_get_host_details`, contrary to
the claimed envelope {error: "Failed to get host details for <hostname>: HTTP
404", status_code: 404}, produces an envelope that does have an "error" key
but has NO "status_code" key — only `quads_login` has the dedicated
HTTPStatusError handler that attaches one. -/
theorem hostDetails_404_lacks_status_code :
    ((quads_get_host_details "host1" Ctx.present defaultCfg
        (HttpResult.response 404 (some Json.null))).1.toOption.getD
        Json.null).hasKey "error" = true ∧
    ((quads_get_host_details "host1" Ctx.present defaultCfg
        (HttpResult.response 404 (some Json.null))).1.toOption.getD
        Json.null).hasKey "status_code" = false := ⟨rfl, rfl⟩

/-- C1 (amended): only `quads_login` surfaces a non-2xx response as
{error: "Login failed: HTTP <status>", status_code: <status>}; every other
tool operation — in particular `quads_get_host_details` — folds the HTTP
status error into its generic handler and returns a single-key envelope
{error: "<op prefix>: <exception message>"} with no status_code key. -/
theorem non2xx_error_envelopes :
    (∀ (u p : String) (cfg : Config) (s : Nat) (b : Option Json),
      s < 200 ∨ 300 ≤ s →
      (quads_login u p Ctx.present cfg (.response s b)).1 =
        .ok (.obj [("error", .str ("Login failed: HTTP " ++ toString s)),
                   ("status_code", .num s)])) ∧
    (∀ (hostname : String) (cfg : Config) (s : Nat) (b : Option Json),
      s < 200 ∨ 300 ≤ s →
      ∃ msg, (quads_get_host_details hostname Ctx.present cfg
          (.response s b)).1 = .ok (.obj [("error", .str msg)])) ∧
    (∀ cfg s b, s < 200 ∨ 300 ≤ s →
      ∃ msg, (quads_get_clouds Ctx.present cfg (.response s b)).1 =
        .ok (.obj [("error", .str msg)])) ∧
    (∀ cfg s b, s < 200 ∨ 300 ≤ s →
      ∃ msg, (quads_get_free_clouds Ctx.present cfg (.response s b)).1 =
        .ok (.obj [("error", .str msg)])) ∧
    (∀ name model host_type broken cfg s b, s < 200 ∨ 300 ≤ s →
      ∃ msg, (quads_get_hosts name model host_type broken Ctx.present cfg
          (.response s b)).1 = .ok (.obj [("error", .str msg)])) ∧
    (∀ start end_ cloud cfg s b, s < 200 ∨ 300 ≤ s →
      ∃ msg, (quads_get_available_hosts start end_ cloud Ctx.present cfg
          (.response s b)).1 = .ok (.obj [("error", .str msg)])) ∧
    (∀ hostname start end_ cfg s b, s < 200 ∨ 300 ≤ s →
      ∃ msg, (quads_check_host_availability hostname start end_ Ctx.present cfg
          (.response s b)).1 = .ok (.obj [("error", .str msg)])) ∧
    (∀ cfg s b, s < 200 ∨ 300 ≤ s →
      ∃ msg, (quads_get_schedules Ctx.present cfg (.response s b)).1 =
        .ok (.obj [("error", .str msg)])) ∧
    (∀ date host cloud cfg s b, s < 200 ∨ 300 ≤ s →
      ∃ msg, (quads_get_current_schedules date host cloud Ctx.present cfg
          (.response s b)).1 = .ok (.obj [("error", .str msg)])) ∧
    (∀ cfg s b, s < 200 ∨ 300 ≤ s →
      ∃ msg, (quads_get_assignments Ctx.present cfg (.response s b)).1 =
        .ok (.obj [("error", .str msg)])) ∧
    (∀ cloud_name cfg s b, s < 200 ∨ 300 ≤ s →
      ∃ msg, (quads_get_active_assignments cloud_name Ctx.present cfg
          (.response s b)).1 = .ok (.obj [("error", .str msg)])) ∧
    (∀ date cfg s b, s < 200 ∨ 300 ≤ s →
      ∃ msg, (quads_get_moves date Ctx.present cfg (.response s b)).1 =
        .ok (.obj [("error", .str msg)])) ∧
    (∀ cfg s b, s < 200 ∨ 300 ≤ s →
      ∃ msg, (quads_get_version Ctx.present cfg (.response s b)).1 =
        .ok (.obj [("error", .str msg)])) :=
  ⟨fun u p cfg s b h => by rw [quads_login_non2xx u p cfg s b h],
   fun hostname cfg s b h => runGet_non2xx_single_error _ s b h,
   fun cfg s b h => runGet_non2xx_single_error _ s b h,
   fun cfg s b h => runGet_non2xx_single_error _ s b h,
   fun name model host_type broken cfg s b h =>
     runGet_non2xx_single_error _ s b h,
   fun start end_ cloud cfg s b h => runGet_non2xx_single_error _ s b h,
   fun hostname start end_ cfg s b h => runGet_non2xx_single_error _ s b h,
   fun cfg s b h => runGet_non2xx_single_error _ s b h,
   fun date host cloud cfg s b h => runGet_non2xx_single_error _ s b h,
   fun cfg s b h => runGet_non2xx_single_error _ s b h,
   fun cloud_name cfg s b h => runGet_non2xx_single_error _ s b h,
   fun date cfg s b h => runGet_non2xx_single_error _ s b h,
   fun cfg s b h => runGet_non2xx_single_error _ s b h⟩

/-- Witness for C1 (amended): a 404 on quads_login yields the status-coded
envelope. -/
theorem non2xx_error_envelopes_witness :
    (404 < 200 ∨ 300 ≤ 404) ∧
    (quads_login "u" "p" Ctx.present defaultCfg
        (HttpResult.response 404 none)).1 =
      Except.ok (Json.obj
        [("error", Json.str ("Login failed: HTTP " ++ toString 404)),
         ("status_code", Json.num 404)]) :=
  ⟨by decide,
    non2xx_error_envelopes.1 "u" "p" defaultCfg 404 none (by decide)⟩

/-- C2 counterexample: `quads_login` returns the decoded payload unwrapped
(`return result`), so a 200 response with body {} is returned as the envelope
{} — an envelope with neither a success key nor an "error" key, refuting the
claimed never-neither invariant. -/
theorem login_unwrapped_empty_envelope :
    (quads_login "user" "pass" Ctx.present defaultCfg
        (HttpResult.response 200 (some (Json.obj [])))).1 =
      Except.ok (Json.obj []) ∧
    (Json.obj []).hasKey "error" = false := ⟨rfl, rfl⟩

/-- C2 (amended): for every tool other than `quads_login`, every returned
envelope has exactly one top-level shape: either it contains the operation's
documented domain key and no "error" key (success envelopes may carry extra
data keys such as "filters"/"parameters" alongside the domain key), or it is
exactly the single-key object {error: <string>}.  `quads_login` is the
exception: its success envelope is the decoded remote payload returned
unchanged, which may have any shape. -/
theorem envelope_single_shape :
    (∀ cfg net env, (quads_get_clouds Ctx.present cfg net).1 = .ok env →
      (env.hasKey "clouds" = true ∧ env.hasKey "error" = false) ∨
        ∃ m, env = .obj [("error", .str m)]) ∧
    (∀ cfg net env, (quads_get_free_clouds Ctx.present cfg net).1 = .ok env →
      (env.hasKey "free_clouds" = true ∧ env.hasKey "error" = false) ∨
        ∃ m, env = .obj [("error", .str m)]) ∧
    (∀ name model host_type broken cfg net env,
      (quads_get_hosts name model host_type broken Ctx.present cfg net).1 =
        .ok env →
      (env.hasKey "hosts" = true ∧ env.hasKey "error" = false) ∨
        ∃ m, env = .obj [("error", .str m)]) ∧
    (∀ hostname cfg net env,
      (quads_get_host_details hostname Ctx.present cfg net).1 = .ok env →
      (env.hasKey "host" = true ∧ env.hasKey "error" = false) ∨
        ∃ m, env = .obj [("error", .str m)]) ∧
    (∀ start end_ cloud cfg net env,
      (quads_get_available_hosts start end_ cloud Ctx.present cfg net).1 =
        .ok env →
      (env.hasKey "available_hosts" = true ∧ env.hasKey "error" = false) ∨
        ∃ m, env = .obj [("error", .str m)]) ∧
    (∀ hostname start end_ cfg net env,
      (quads_check_host_availability hostname start end_ Ctx.present cfg
          net).1 = .ok env →
      (env.hasKey "availability" = true ∧ env.hasKey "error" = false) ∨
        ∃ m, env = .obj [("error", .str m)]) ∧
    (∀ cfg net env, (quads_get_schedules Ctx.present cfg net).1 = .ok env →
      (env.hasKey "schedules" = true ∧ env.hasKey "error" = false) ∨
        ∃ m, env = .obj [("error", .str m)]) ∧
    (∀ date host cloud cfg net env,
      (quads_get_current_schedules date host cloud Ctx.present cfg net).1 =
        .ok env →
      (env.hasKey "current_schedules" = true ∧ env.hasKey "error" = false) ∨
        ∃ m, env = .obj [("error", .str m)]) ∧
    (∀ cfg net env, (quads_get_assignments Ctx.present cfg net).1 = .ok env →
      (env.hasKey "assignments" = true ∧ env.hasKey "error" = false) ∨
        ∃ m, env = .obj [("error", .str m)]) ∧
    (∀ cloud_name cfg net env,
      (quads_get_active_assignments cloud_name Ctx.present cfg net).1 =
        .ok env →
      (env.hasKey "active_assignments" = true ∧ env.hasKey "error" = false) ∨
        ∃ m, env = .obj [("error", .str m)]) ∧
    (∀ date cfg net env, (quads_get_moves date Ctx.present cfg net).1 =
        .ok env →
      (env.hasKey "moves" = true ∧ env.hasKey "error" = false) ∨
        ∃ m, env = .obj [("error", .str m)]) ∧
    (∀ cfg net env, (quads_get_version Ctx.present cfg net).1 = .ok env →
      (env.hasKey "version" = true ∧ env.hasKey "error" = false) ∨
        ∃ m, env = .obj [("error", .str m)]) :=
  ⟨fun cfg net env h =>
     getTool_shape (cloudsSpec cfg) "clouds" net env (fun _ => ⟨rfl, rfl⟩) h,
   fun cfg net env h =>
     getTool_shape (freeCloudsSpec cfg) "free_clouds" net env
       (fun _ => ⟨rfl, rfl⟩) h,
   fun name model host_type broken cfg net env h =>
     getTool_shape (hostsSpec name model host_type broken cfg) "hosts" net env
       (fun _ => ⟨rfl, rfl⟩) h,
   fun hostname cfg net env h =>
     getTool_shape (hostDetailsSpec hostname cfg) "host" net env
       (fun _ => ⟨rfl, rfl⟩) h,
   fun start end_ cloud cfg net env h =>
     getTool_shape (availableHostsSpec start end_ cloud cfg) "available_hosts"
       net env (fun _ => ⟨rfl, rfl⟩) h,
   fun hostname start end_ cfg net env h =>
     getTool_shape (checkAvailSpec hostname start end_ cfg) "availability"
       net env (fun _ => ⟨rfl, rfl⟩) h,
   fun cfg net env h =>
     getTool_shape (schedulesSpec cfg) "schedules" net env
       (fun _ => ⟨rfl, rfl⟩) h,
   fun date host cloud cfg net env h =>
     getTool_shape (currentSchedSpec date host cloud cfg) "current_schedules"
       net env (fun _ => ⟨rfl, rfl⟩) h,
   fun cfg net env h =>
     getTool_shape (assignmentsSpec cfg) "assignments" net env
       (fun _ => ⟨rfl, rfl⟩) h,
   fun cloud_name cfg net env h =>
     getTool_shape (activeAssignSpec cloud_name cfg) "active_assignments"
       net env (fun _ => ⟨rfl, rfl⟩) h,
   fun date cfg net env h =>
     getTool_shape (movesSpec date cfg) "moves" net env
       (fun _ => ⟨rfl, rfl⟩) h,
   fun cfg net env h =>
     getTool_shape (versionSpec cfg) "version" net env
       (fun _ => ⟨rfl, rfl⟩) h⟩

/-- Witness for C2 (amended): a successful clouds fetch has the "clouds"
domain key and no "error" key. -/
theorem envelope_single_shape_witness :
    ((Json.obj [("clouds", Json.arr [])]).hasKey "clouds" = true ∧
        (Json.obj [("clouds", Json.arr [])]).hasKey "error" = false) ∨
      ∃ m, Json.obj [("clouds", Json.arr [])] =
        Json.obj [("error", Json.str m)] :=
  envelope_single_shape.1 defaultCfg
    (HttpResult.response 200 (some (Json.arr [])))
    (Json.obj [("clouds", Json.arr [])]) rfl

/-- C3 counterexample: a successful invocation of `quads_get_clouds` emits TWO
informational diagnostic messages (one announcing the request, one reporting
the result), not exactly one as claimed. -/
theorem success_emits_two_info_messages :
    (quads_get_clouds Ctx.present defaultCfg
        (HttpResult.response 200 (some (Json.arr [])))).2.1 =
      [(Level.info, "Fetching all clouds from QUADS"),
       (Level.info, "Retrieved 0 clouds")] ∧
    countLevel Level.info ((quads_get_clouds Ctx.present defaultCfg
        (HttpResult.response 200 (some (Json.arr [])))).2.1) = 2 :=
  ⟨rfl, rfl⟩

/-- C3 (amended): with the diagnostics handle present, every failure path of
every tool emits exactly one error-level diagnostic message (preceded by the
single pre-request informational message) before returning the error
envelope, and every success path emits exactly two informational messages and
no error-level message. -/
theorem diagnostic_message_counts :
    (∀ u p cfg, logDiscipline (quads_login u p Ctx.present cfg)) ∧
    (∀ cfg, logDiscipline (quads_get_clouds Ctx.present cfg)) ∧
    (∀ cfg, logDiscipline (quads_get_free_clouds Ctx.present cfg)) ∧
    (∀ name model host_type broken cfg,
      logDiscipline (quads_get_hosts name model host_type broken
        Ctx.present cfg)) ∧
    (∀ hostname cfg,
      logDiscipline (quads_get_host_details hostname Ctx.present cfg)) ∧
    (∀ start end_ cloud cfg,
      logDiscipline (quads_get_available_hosts start end_ cloud
        Ctx.present cfg)) ∧
    (∀ hostname start end_ cfg,
      logDiscipline (quads_check_host_availability hostname start end_
        Ctx.present cfg)) ∧
    (∀ cfg, logDiscipline (quads_get_schedules Ctx.present cfg)) ∧
    (∀ date host cloud cfg,
      logDiscipline (quads_get_current_schedules date host cloud
        Ctx.present cfg)) ∧
    (∀ cfg, logDiscipline (quads_get_assignments Ctx.present cfg)) ∧
    (∀ cloud_name cfg,
      logDiscipline (quads_get_active_assignments cloud_name
        Ctx.present cfg)) ∧
    (∀ date cfg, logDiscipline (quads_get_moves date Ctx.present cfg)) ∧
    (∀ cfg, logDiscipline (quads_get_version Ctx.present cfg)) :=
  ⟨fun u p cfg => quads_login_logDiscipline u p cfg,
   fun cfg => runGet_logDiscipline (cloudsSpec cfg),
   fun cfg => runGet_logDiscipline (freeCloudsSpec cfg),
   fun name model host_type broken cfg =>
     runGet_logDiscipline (hostsSpec name model host_type broken cfg),
   fun hostname cfg => runGet_logDiscipline (hostDetailsSpec hostname cfg),
   fun start end_ cloud cfg =>
     runGet_logDiscipline (availableHostsSpec start end_ cloud cfg),
   fun hostname start end_ cfg =>
     runGet_logDiscipline (checkAvailSpec hostname start end_ cfg),
   fun cfg => runGet_logDiscipline (schedulesSpec cfg),
   fun date host cloud cfg =>
     runGet_logDiscipline (currentSchedSpec date host cloud cfg),
   fun cfg => runGet_logDiscipline (assignmentsSpec cfg),
   fun cloud_name cfg =>
     runGet_logDiscipline (activeAssignSpec cloud_name cfg),
   fun date cfg => runGet_logDiscipline (movesSpec date cfg),
   fun cfg => runGet_logDiscipline (versionSpec cfg)⟩

/-- Witness for C3 (amended): the concrete failure and success scenarios of
quads_get_clouds have the stated message counts. -/
theorem diagnostic_message_counts_witness :
    (countLevel Level.error ((quads_get_clouds Ctx.present defaultCfg
        (HttpResult.failure "timed out")).2.1) = 1 ∧
     countLevel Level.info ((quads_get_clouds Ctx.present defaultCfg
        (HttpResult.failure "timed out")).2.1) = 1) ∧
    (200 ≤ 200 ∧ 200 < 300) ∧
    (countLevel Level.error ((quads_get_clouds Ctx.present defaultCfg
        (HttpResult.response 200 (some Json.null))).2.1) = 0 ∧
     countLevel Level.info ((quads_get_clouds Ctx.present defaultCfg
        (HttpResult.response 200 (some Json.null))).2.1) = 2) :=
  ⟨(diagnostic_message_counts.2.1 defaultCfg).1 "timed out",
   ⟨by decide, by decide⟩,
   (diagnostic_message_counts.2.1 defaultCfg).2.2.2 200 Json.null
     (by decide) (by decide)⟩

/-- C8 counterexample: with the injected Context absent (its declared default
`ctx: Context = None`), the pre-request `ctx.info` call raises AttributeError
inside the try block, and the except handler's own `ctx.error` call raises
again — the exception ESCAPES the tool boundary instead of being converted to
an envelope, refuting the claim for the absent-Context case it explicitly
includes. -/
theorem absent_ctx_exception_escapes :
    (quads_get_hosts none none none none Ctx.absent defaultCfg
        (HttpResult.failure "Connection timed out")).1 =
      Except.error (Exn.attributeError noneCtxMsg) := rfl

/-- C8 (amended): whenever the injected Context is present (so the except
handler's diagnostic call succeeds), every exception raised during the
build-call-normalize sequence of every tool is caught at the tool boundary
and converted to a data envelope — the invocation always returns an envelope.
Only an absent (`None`) Context makes the handler itself raise and the
exception escape. -/
theorem present_ctx_no_escape :
    (∀ u p cfg net, ((quads_login u p Ctx.present cfg net).1).isOk = true) ∧
    (∀ cfg net, ((quads_get_clouds Ctx.present cfg net).1).isOk = true) ∧
    (∀ cfg net, ((quads_get_free_clouds Ctx.present cfg net).1).isOk = true) ∧
    (∀ name model host_type broken cfg net,
      ((quads_get_hosts name model host_type broken Ctx.present cfg
        net).1).isOk = true) ∧
    (∀ hostname cfg net,
      ((quads_get_host_details hostname Ctx.present cfg net).1).isOk = true) ∧
    (∀ start end_ cloud cfg net,
      ((quads_get_available_hosts start end_ cloud Ctx.present cfg
        net).1).isOk = true) ∧
    (∀ hostname start end_ cfg net,
      ((quads_check_host_availability hostname start end_ Ctx.present cfg
        net).1).isOk = true) ∧
    (∀ cfg net, ((quads_get_schedules Ctx.present cfg net).1).isOk = true) ∧
    (∀ date host cloud cfg net,
      ((quads_get_current_schedules date host cloud Ctx.present cfg
        net).1).isOk = true) ∧
    (∀ cfg net, ((quads_get_assignments Ctx.present cfg net).1).isOk = true) ∧
    (∀ cloud_name cfg net,
      ((quads_get_active_assignments cloud_name Ctx.present cfg
        net).1).isOk = true) ∧
    (∀ date cfg net, ((quads_get_moves date Ctx.present cfg net).1).isOk =
      true) ∧
    (∀ cfg net, ((quads_get_version Ctx.present cfg net).1).isOk = true) :=
  ⟨fun u p cfg net => quads_login_present_returns u p cfg net,
   fun cfg net => runGet_present_returns (cloudsSpec cfg) net,
   fun cfg net => runGet_present_returns (freeCloudsSpec cfg) net,
   fun name model host_type broken cfg net =>
     runGet_present_returns (hostsSpec name model host_type broken cfg) net,
   fun hostname cfg net =>
     runGet_present_returns (hostDetailsSpec hostname cfg) net,
   fun start end_ cloud cfg net =>
     runGet_present_returns (availableHostsSpec start end_ cloud cfg) net,
   fun hostname start end_ cfg net =>
     runGet_present_returns (checkAvailSpec hostname start end_ cfg) net,
   fun cfg net => runGet_present_returns (schedulesSpec cfg) net,
   fun date host cloud cfg net =>
     runGet_present_returns (currentSchedSpec date host cloud cfg) net,
   fun cfg net => runGet_present_returns (assignmentsSpec cfg) net,
   fun cloud_name cfg net =>
     runGet_present_returns (activeAssignSpec cloud_name cfg) net,
   fun date cfg net => runGet_present_returns (movesSpec date cfg) net,
   fun cfg net => runGet_present_returns (versionSpec cfg) net⟩
